import Mathlib

/-!
Verification development for the Telegram vision-bot pipeline (src/main.py).

The program is a linear pipeline: a photo message handler downloads raw
bytes, runs an inlined WebP-to-JPEG conversion, uploads the buffer to the
imgbb image host, sends the resulting URL to a vision model with a fixed
retry loop, and replies with the analysis text or a stage-specific failure
message.

The shallow embedding below mirrors that source.  External effects (the
chat platform, the HTTP POST to the image host, the model endpoint, and
the PIL image codec) are modelled as explicit parameters; the Python
functions `upload_image_to_imgbb`, `analyze_image_openai` and
`handle_photo` become Lean functions over those parameters, instrumented
to record the observable events (buffers POSTed, attempts made, sleeps
performed, replies sent) that the properties below speak about.
-/

deriving instance DecidableEq for Except

namespace VisionBot

/-- Color modes of a decoded image, as PIL reports them (`image.mode`).
`RGB` is 3-channel color; the others carry alpha or a palette. -/
inductive ColorMode
  | RGB
  | RGBA
  | P
  | L
deriving DecidableEq, Repr

/-- Encodings an image buffer can carry, as PIL detects them (`image.format`). -/
inductive ImgFormat
  | JPEG
  | WEBP
  | PNG
  | GIF
deriving DecidableEq, Repr

/-- A decoded in-memory image: its detected source encoding, its color
mode, and an abstract pixel payload identifying the picture content. -/
structure Img where
  format : ImgFormat
  mode : ColorMode
  pixels : Nat
deriving DecidableEq, Repr

/-- A raw byte buffer: either a well-formed encoding of an image, or
bytes that no image decoder recognises. -/
inductive ByteBuf
  | encoded (format : ImgFormat) (mode : ColorMode) (pixels : Nat)
  | garbage (id : Nat)
deriving DecidableEq, Repr

/-- PIL `Image.open` over a byte buffer: decodes a well-formed buffer,
raises (here: `none`) on unrecognisable bytes. -/
def imageOpen : ByteBuf → Option Img
  | .encoded f m p => some ⟨f, m, p⟩
  | .garbage _ => none

/-- PIL `image.convert("RGB")`: forces 3-channel color, keeping the pixels. -/
def convertRGB (img : Img) : Img :=
  { img with mode := ColorMode.RGB }

/-- PIL `image.save(output, format="JPEG")`: re-encodes the image as JPEG
into a fresh buffer. -/
def saveJPEG (img : Img) : ByteBuf :=
  ByteBuf.encoded ImgFormat.JPEG img.mode img.pixels

/-- Abstract Python exception values. -/
inductive PyExc
  | indexError
  | decodeError
  | networkError (code : Nat)
deriving DecidableEq, Repr

/-- Outcome of the `requests.post` call to the image host, seen at the
point the source inspects it: either the call raised, or it produced a
response with a status code and (when the JSON body parses and carries
the nested field) the `data.url` string.  A malformed body or a body
missing the field is `none`. -/
inductive PostResult
  | raised
  | response (statusCode : Nat) (dataUrl : Option String)
deriving DecidableEq, Repr

/-- Outcome of one `client.chat.completions.create` call: either the call
raised, or it returned a response whose choices carry the given message
contents (first element = `choices[0].message.content`). -/
inductive ApiResult
  | raised
  | response (choices : List String)
deriving DecidableEq, Repr

/-- The characters Python `str.strip()` removes (ASCII whitespace). -/
def pyIsSpace (c : Char) : Bool :=
  c = ' ' || c = '\t' || c = '\n' || c = '\r' || c = '\x0b' || c = '\x0c'

/-- Python `s.strip()`: drop leading and trailing whitespace. -/
def pyStrip (s : String) : String :=
  String.mk (((s.toList.dropWhile pyIsSpace).reverse.dropWhile pyIsSpace).reverse)

/-- Embedding of `upload_image_to_imgbb` (src/main.py lines 29-60),
parameterised by the behaviour `post` of the HTTP POST to the image host.
Returns the value the Python function returns (the URL string, or `none`
after the catch-all `except` or a non-200 / malformed response), paired
with the list of buffers actually POSTed to the host, in order.  The
function decodes the input, re-encodes it as RGB JPEG, base64-posts that
buffer once, and never retries; a decode failure raises before any POST
and is caught, yielding `none` with no POST made. -/
def upload_image_to_imgbb (post : ByteBuf → PostResult) (file_data : ByteBuf) :
    Option String × List ByteBuf :=
  match imageOpen file_data with
  | none => (none, [])
  | some image =>
    let output := saveJPEG (convertRGB image)
    match post output with
    | .raised => (none, [output])
    | .response statusCode dataUrl =>
      if statusCode = 200 then
        match dataUrl with
        | some u => (some u, [output])
        | none => (none, [output])
      else
        (none, [output])

/-- The body of the `for attempt in range(retries)` loop of
`analyze_image_openai` (src/main.py lines 64-101), unrolled on `fuel`
(the number of iterations remaining; `attempt` is the current index, so
`attempt + fuel = retries` at every call from the top).  Returns the
Python return value (`some` trimmed text, or `none`), the number of
endpoint calls made, and the list of sleep durations executed, in order.
An empty `choices` list makes `response.choices[0]` raise, landing in the
same `except` branch as a raised call. -/
def analyzeGo (client : String → Nat → ApiResult) (image_url : String)
    (retries delay : Nat) (attempt fuel : Nat) : Option String × Nat × List Nat :=
  match fuel with
  | 0 => (none, 0, [])
  | fuel' + 1 =>
    let onExc : Option String × Nat × List Nat :=
      if attempt < retries - 1 then
        let rest := analyzeGo client image_url retries delay (attempt + 1) fuel'
        (rest.1, rest.2.1 + 1, delay :: rest.2.2)
      else
        (none, 1, [])
    match client image_url attempt with
    | .response (c :: _) => (some (pyStrip c), 1, [])
    | .response [] => onExc
    | .raised => onExc

/-- Embedding of `analyze_image_openai` (src/main.py lines 64-101):
run the retry loop from attempt 0 with `retries` iterations available.
The endpoint behaviour `client` maps the URL and the attempt index to
that call's outcome. -/
def analyze_image_openai (client : String → Nat → ApiResult) (image_url : String)
    (retries delay : Nat) : Option String × Nat × List Nat :=
  analyzeGo client image_url retries delay 0 retries

/-- The format-conversion step inlined in `handle_photo` (src/main.py
lines 112-123, the inner `try` body): open the buffer; when the detected
format is `WEBP`, convert to RGB and re-encode as JPEG, replacing
`file_data`; any other decodable format leaves `file_data` untouched.
`Image.open` raising on unrecognisable bytes is the error case. -/
def dispatchConvert (file_data : ByteBuf) : Except PyExc ByteBuf :=
  match imageOpen file_data with
  | none => Except.error PyExc.decodeError
  | some image =>
    if image.format = ImgFormat.WEBP then
      Except.ok (saveJPEG (convertRGB image))
    else
      Except.ok file_data

/-- Modelled from the spec: the standalone Image Normalizer of spec
section 4.1, which exists in src/main.py only as inlined steps.  Its
stated contract: decode; if the decoded format is not already the
canonical JPEG form, convert the color mode to 3-channel RGB and
re-encode as JPEG; otherwise the conversion is a no-op; fail (decode
error) on an unrecognisable buffer. -/
def normalizerSpec (file_data : ByteBuf) : Option ByteBuf :=
  match imageOpen file_data with
  | none => none
  | some image =>
    if image.format = ImgFormat.JPEG then
      some file_data
    else
      some (saveJPEG (convertRGB image))

/-- An inbound Telegram photo message: the file ids of its photo size
variants, in ascending resolution (`message.photo`). -/
structure Message where
  photo : List Nat
deriving DecidableEq, Repr

/-- The external world `handle_photo` interacts with: the chat platform
(`getFile` maps a file id to a file path, `downloadFile` maps a file path
to raw bytes, either may raise), the image host POST, and the model
endpoint. -/
structure Env where
  getFile : Nat → Except PyExc Nat
  downloadFile : Nat → Except PyExc ByteBuf
  post : ByteBuf → PostResult
  client : String → Nat → ApiResult

/-- The observable effects of one `handle_photo` invocation: the reply
texts sent to the chat (in order), the buffers POSTed to the image host,
and whether the uploader and the analyzer were invoked at all. -/
structure Trace where
  replies : List String
  hostPosts : List ByteBuf
  uploadCalled : Bool
  analyzeCalled : Bool
deriving DecidableEq, Repr

/-- The body of `handle_photo`'s outer `try` block (src/main.py lines
107-136).  `message.photo[-1]` raises IndexError on an empty list;
`bot.get_file` and `bot.download_file` may raise; the inlined conversion
failure replies and returns; the uploader and analyzer never raise (they
catch internally), and their falsy results (`None` or the empty string,
by Python truthiness) select the failure replies.  Replies themselves are
recorded as events. -/
def handlePhotoInner (env : Env) (message : Message) : Except PyExc Trace :=
  match message.photo.getLast? with
  | none => Except.error PyExc.indexError
  | some fileId =>
  match env.getFile fileId with
  | .error e => Except.error e
  | .ok filePath =>
  match env.downloadFile filePath with
  | .error e => Except.error e
  | .ok file_data =>
  match dispatchConvert file_data with
  | .error _ =>
    Except.ok ⟨["Failed to process the image format."], [], false, false⟩
  | .ok file_data2 =>
    let up := upload_image_to_imgbb env.post file_data2
    match up.1 with
    | none => Except.ok ⟨["Failed to upload image to ImgBB."], up.2, true, false⟩
    | some image_url =>
      if image_url = "" then
        Except.ok ⟨["Failed to upload image to ImgBB."], up.2, true, false⟩
      else
        let ar := analyze_image_openai env.client image_url 3 2
        match ar.1 with
        | some analysis_result =>
          if analysis_result = "" then
            Except.ok ⟨["Failed to analyze image using OpenAI Vision API."], up.2, true, true⟩
          else
            Except.ok ⟨["Image analysis result:\n" ++ analysis_result], up.2, true, true⟩
        | none =>
          Except.ok ⟨["Failed to analyze image using OpenAI Vision API."], up.2, true, true⟩

/-- Embedding of `handle_photo` (src/main.py lines 105-140): run the
pipeline; any exception escaping the body is caught by the top-level
`except`, which replies with the generic failure message. -/
def handle_photo (env : Env) (message : Message) : Trace :=
  match handlePhotoInner env message with
  | .ok t => t
  | .error _ => ⟨["Failed to process the image."], [], false, false⟩

/-- Invariant of the retry loop when every endpoint call raises: starting
at index `attempt` with `fuel` iterations left (and `attempt + fuel =
retries`), the loop makes exactly `fuel` calls, sleeps `fuel - 1` times
with the fixed delay, and yields no result. -/
lemma analyzeGo_all_raise (client : String → Nat → ApiResult) (image_url : String)
    (retries delay : Nat) (fuel : Nat) :
    ∀ attempt, attempt + fuel = retries →
      (∀ a, a < retries → client image_url a = ApiResult.raised) →
      analyzeGo client image_url retries delay attempt fuel =
        (none, fuel, List.replicate (fuel - 1) delay) := by
  induction fuel with
  | zero =>
    intro attempt hsum hr
    simp [analyzeGo]
  | succ f ih =>
    intro attempt hsum hr
    have hlt : attempt < retries := by omega
    rw [analyzeGo, hr attempt hlt]
    cases f with
    | zero =>
      have hc : ¬ attempt < retries - 1 := by omega
      simp [hc]
    | succ g =>
      have hc : attempt < retries - 1 := by omega
      have hrec := ih (attempt + 1) (by omega) hr
      simp [hc, hrec, List.replicate_succ]

/-- C1: if every one of the `retries` calls to the model endpoint raises,
`analyze_image_openai` makes exactly `retries` attempts (no more, no
fewer) and returns the no-result signal `none` instead of raising. -/
theorem analyze_all_fail_attempts_eq_retries (client : String → Nat → ApiResult)
    (image_url : String) (retries delay : Nat)
    (h : ∀ a, a < retries → client image_url a = ApiResult.raised) :
    (analyze_image_openai client image_url retries delay).1 = none ∧
    (analyze_image_openai client image_url retries delay).2.1 = retries := by
  have key := analyzeGo_all_raise client image_url retries delay retries 0 (by omega) h
  simp [analyze_image_openai, key]

/-- A model endpoint that raises on every call. -/
def clientAlwaysRaises : String → Nat → ApiResult := fun _ _ => ApiResult.raised

/-- Witness for C1 at the default budget of 3 retries. -/
theorem analyze_all_fail_attempts_eq_retries_witness :
    (analyze_image_openai clientAlwaysRaises "u" 3 2).1 = none ∧
    (analyze_image_openai clientAlwaysRaises "u" 3 2).2.1 = 3 :=
  analyze_all_fail_attempts_eq_retries clientAlwaysRaises "u" 3 2 (fun _ _ => rfl)

/-- C2: with a retry budget of at least 3, if the first two endpoint
calls raise and the third succeeds, `analyze_image_openai` returns the
trimmed text of the first response choice and sleeps exactly twice, each
time with the configured delay. -/
theorem analyze_fail_twice_then_succeed (client : String → Nat → ApiResult)
    (image_url : String) (retries delay : Nat) (c : String) (cs : List String)
    (hr : 3 ≤ retries)
    (h0 : client image_url 0 = ApiResult.raised)
    (h1 : client image_url 1 = ApiResult.raised)
    (h2 : client image_url 2 = ApiResult.response (c :: cs)) :
    (analyze_image_openai client image_url retries delay).1 = some (pyStrip c) ∧
    (analyze_image_openai client image_url retries delay).2.2 = [delay, delay] := by
  obtain ⟨r, rfl⟩ : ∃ r, retries = r + 3 := ⟨retries - 3, by omega⟩
  have e0 : (0 : Nat) < r + 3 - 1 := by omega
  have e1 : (1 : Nat) < r + 3 - 1 := by omega
  simp [analyze_image_openai, analyzeGo, h0, h1, h2, e0, e1]

/-- A model endpoint that raises on attempts 0 and 1 and succeeds from
attempt 2 on. -/
def clientFlaky : String → Nat → ApiResult :=
  fun _ a => if a < 2 then ApiResult.raised else ApiResult.response [" hi "]

/-- Witness for C2 at retry budget 3 and delay 2. -/
theorem analyze_fail_twice_then_succeed_witness :
    (analyze_image_openai clientFlaky "u" 3 2).1 = some (pyStrip " hi ") ∧
    (analyze_image_openai clientFlaky "u" 3 2).2.2 = [2, 2] :=
  analyze_fail_twice_then_succeed clientFlaky "u" 3 2 " hi " [] (by omega) rfl rfl rfl

/-- C3 counterexample: on a decodable PNG buffer (not the canonical JPEG
form), the spec's Normalizer passes the RGB-converted JPEG re-encoding
onward, but the Dispatcher's inlined step passes the original PNG buffer
unchanged — the two conversion semantics differ. -/
theorem dispatch_convert_differs_from_normalizer_on_png :
    normalizerSpec (ByteBuf.encoded ImgFormat.PNG ColorMode.P 3) =
      some (ByteBuf.encoded ImgFormat.JPEG ColorMode.RGB 3) ∧
    dispatchConvert (ByteBuf.encoded ImgFormat.PNG ColorMode.P 3) =
      Except.ok (ByteBuf.encoded ImgFormat.PNG ColorMode.P 3) ∧
    dispatchConvert (ByteBuf.encoded ImgFormat.PNG ColorMode.P 3) ≠
      Except.ok (ByteBuf.encoded ImgFormat.JPEG ColorMode.RGB 3) := by
  refine ⟨rfl, rfl, ?_⟩
  decide

/-- C3 (amended): the Dispatcher's inlined conversion step re-encodes
(as RGB JPEG) exactly the decodable buffers whose detected format is
WEBP; every other decodable buffer — canonical JPEG, but also PNG and
other non-canonical formats — is passed onward unchanged.  It therefore
agrees with the section-4.1 Normalizer only on WEBP and already-JPEG
inputs. -/
theorem dispatch_convert_webp_only (b : ByteBuf) (img : Img)
    (h : imageOpen b = some img) :
    dispatchConvert b =
      Except.ok
        (if img.format = ImgFormat.WEBP then saveJPEG (convertRGB img) else b) := by
  cases b with
  | encoded f m p =>
    simp only [imageOpen, Option.some.injEq] at h
    subst h
    by_cases hf : f = ImgFormat.WEBP <;>
      simp [dispatchConvert, imageOpen, hf]
  | garbage i =>
    simp [imageOpen] at h

/-- Witness for the amended C3 at a WEBP input (the converted case). -/
theorem dispatch_convert_webp_only_witness :
    dispatchConvert (ByteBuf.encoded ImgFormat.WEBP ColorMode.RGBA 7) =
      Except.ok
        (if (Img.mk ImgFormat.WEBP ColorMode.RGBA 7).format = ImgFormat.WEBP
          then saveJPEG (convertRGB (Img.mk ImgFormat.WEBP ColorMode.RGBA 7))
          else ByteBuf.encoded ImgFormat.WEBP ColorMode.RGBA 7) :=
  dispatch_convert_webp_only (ByteBuf.encoded ImgFormat.WEBP ColorMode.RGBA 7)
    (Img.mk ImgFormat.WEBP ColorMode.RGBA 7) rfl

/-- C4: when the input buffer decodes and the image host answers the POST
with HTTP 200 and a JSON body whose data.url field is `u`, the uploader
returns exactly `u`. -/
theorem upload_success_returns_url (post : ByteBuf → PostResult) (b : ByteBuf)
    (img : Img) (u : String)
    (hdec : imageOpen b = some img)
    (hpost : post (saveJPEG (convertRGB img)) = PostResult.response 200 (some u)) :
    (upload_image_to_imgbb post b).1 = some u := by
  simp [upload_image_to_imgbb, hdec, hpost]

/-- An image host that always answers 200 with a fixed URL. -/
def postAlwaysOk : ByteBuf → PostResult :=
  fun _ => PostResult.response 200 (some "https://x/y.jpg")

/-- Witness for C4 at a PNG input. -/
theorem upload_success_returns_url_witness :
    (upload_image_to_imgbb postAlwaysOk
      (ByteBuf.encoded ImgFormat.PNG ColorMode.RGBA 5)).1 = some "https://x/y.jpg" :=
  upload_success_returns_url postAlwaysOk (ByteBuf.encoded ImgFormat.PNG ColorMode.RGBA 5)
    (Img.mk ImgFormat.PNG ColorMode.RGBA 5) "https://x/y.jpg" rfl rfl

/-- C5: when the input buffer decodes but the POST raises, or the host
answers with a non-200 status, or answers 200 with a body missing the
data.url field, the uploader returns `none` after exactly one POST — no
retry is made, and the failure does not escape as an exception. -/
theorem upload_failure_returns_none_single_attempt (post : ByteBuf → PostResult)
    (b : ByteBuf) (img : Img)
    (hdec : imageOpen b = some img)
    (hfail : post (saveJPEG (convertRGB img)) = PostResult.raised ∨
      ∃ code dataUrl, post (saveJPEG (convertRGB img)) = PostResult.response code dataUrl ∧
        (code ≠ 200 ∨ dataUrl = none)) :
    (upload_image_to_imgbb post b).1 = none ∧
    (upload_image_to_imgbb post b).2.length = 1 := by
  rcases hfail with hp | ⟨code, dataUrl, hp, hbad⟩
  · simp [upload_image_to_imgbb, hdec, hp]
  · rcases hbad with hc | hd
    · simp [upload_image_to_imgbb, hdec, hp, hc]
    · subst hd
      by_cases hc : code = 200 <;> simp [upload_image_to_imgbb, hdec, hp, hc]

/-- An image host that always answers HTTP 400. -/
def postBadStatus : ByteBuf → PostResult :=
  fun _ => PostResult.response 400 (some "err")

/-- Witness for C5 at a 400-answering host. -/
theorem upload_failure_returns_none_single_attempt_witness :
    (upload_image_to_imgbb postBadStatus
      (ByteBuf.encoded ImgFormat.PNG ColorMode.RGBA 5)).1 = none ∧
    (upload_image_to_imgbb postBadStatus
      (ByteBuf.encoded ImgFormat.PNG ColorMode.RGBA 5)).2.length = 1 :=
  upload_failure_returns_none_single_attempt postBadStatus
    (ByteBuf.encoded ImgFormat.PNG ColorMode.RGBA 5)
    (Img.mk ImgFormat.PNG ColorMode.RGBA 5) rfl
    (Or.inr ⟨400, some "err", rfl, Or.inl (by decide)⟩)

/-- C6: for every valid WebP or PNG input buffer, the normalized buffer
the uploader submits to the image host (the bytes it base64-encodes) is
exactly the RGB JPEG re-encoding, and that buffer decodes as a JPEG image
with 3-channel (RGB) color. -/
theorem upload_posts_rgb_jpeg (post : ByteBuf → PostResult)
    (fmt : ImgFormat) (mode : ColorMode) (pixels : Nat)
    (hfmt : fmt = ImgFormat.WEBP ∨ fmt = ImgFormat.PNG) :
    (upload_image_to_imgbb post (ByteBuf.encoded fmt mode pixels)).2 =
      [ByteBuf.encoded ImgFormat.JPEG ColorMode.RGB pixels] ∧
    imageOpen (ByteBuf.encoded ImgFormat.JPEG ColorMode.RGB pixels) =
      some (Img.mk ImgFormat.JPEG ColorMode.RGB pixels) := by
  refine ⟨?_, rfl⟩
  cases hpost : post (ByteBuf.encoded ImgFormat.JPEG ColorMode.RGB pixels) with
  | raised =>
    simp [upload_image_to_imgbb, imageOpen, saveJPEG, convertRGB, hpost]
  | response code dataUrl =>
    by_cases hc : code = 200
    · cases dataUrl <;>
        simp [upload_image_to_imgbb, imageOpen, saveJPEG, convertRGB, hpost, hc]
    · simp [upload_image_to_imgbb, imageOpen, saveJPEG, convertRGB, hpost, hc]

/-- An image host whose POST always raises. -/
def postAlwaysRaises : ByteBuf → PostResult := fun _ => PostResult.raised

/-- Witness for C6 at a WEBP input. -/
theorem upload_posts_rgb_jpeg_witness :
    (upload_image_to_imgbb postAlwaysRaises
      (ByteBuf.encoded ImgFormat.WEBP ColorMode.RGBA 9)).2 =
      [ByteBuf.encoded ImgFormat.JPEG ColorMode.RGB 9] ∧
    imageOpen (ByteBuf.encoded ImgFormat.JPEG ColorMode.RGB 9) =
      some (Img.mk ImgFormat.JPEG ColorMode.RGB 9) :=
  upload_posts_rgb_jpeg postAlwaysRaises ImgFormat.WEBP ColorMode.RGBA 9 (Or.inl rfl)

/-- C7: when the downloaded bytes fail to decode as an image, the handler
replies with the format-failure message and stops — the uploader is never
called (no buffer is POSTed) and no analysis is attempted. -/
theorem handle_photo_decode_failure_stops (env : Env) (message : Message)
    (fid fp : Nat) (b : ByteBuf)
    (h1 : message.photo.getLast? = some fid)
    (h2 : env.getFile fid = Except.ok fp)
    (h3 : env.downloadFile fp = Except.ok b)
    (h4 : imageOpen b = none) :
    handle_photo env message =
      ⟨["Failed to process the image format."], [], false, false⟩ := by
  simp [handle_photo, handlePhotoInner, h1, h2, h3, dispatchConvert, h4]

/-- A single-variant photo message. -/
def msgOne : Message := ⟨[5]⟩

/-- An environment whose download yields undecodable bytes. -/
def envGarbage : Env :=
  { getFile := fun _ => Except.ok 0
    downloadFile := fun _ => Except.ok (ByteBuf.garbage 0)
    post := fun _ => PostResult.raised
    client := fun _ _ => ApiResult.raised }

/-- Witness for C7 on undecodable bytes. -/
theorem handle_photo_decode_failure_stops_witness :
    handle_photo envGarbage msgOne =
      ⟨["Failed to process the image format."], [], false, false⟩ :=
  handle_photo_decode_failure_stops envGarbage msgOne 5 0 (ByteBuf.garbage 0)
    rfl rfl rfl rfl

/-- C8: any exception escaping the body of `handle_photo` is caught at
the top level and answered with the generic failure reply — the handler
itself is a total function into `Trace`, so no exception propagates to
the platform's message loop. -/
theorem handle_photo_catches_all (env : Env) (message : Message) (e : PyExc)
    (h : handlePhotoInner env message = Except.error e) :
    (handle_photo env message).replies = ["Failed to process the image."] := by
  simp [handle_photo, h]

/-- An environment whose chat-platform calls raise. -/
def envRaises : Env :=
  { getFile := fun _ => Except.error (PyExc.networkError 0)
    downloadFile := fun _ => Except.error (PyExc.networkError 0)
    post := fun _ => PostResult.raised
    client := fun _ _ => ApiResult.raised }

/-- Witness for C8 when `bot.get_file` raises. -/
theorem handle_photo_catches_all_witness :
    (handle_photo envRaises msgOne).replies = ["Failed to process the image."] :=
  handle_photo_catches_all envRaises msgOne (PyExc.networkError 0) rfl

/-- C9: when download and conversion succeed, the upload returns a
(non-empty) URL and the analysis returns a non-empty text `t`, the
handler's reply is exactly the fixed label followed by `t`. -/
theorem handle_photo_success_reply (env : Env) (message : Message)
    (fid fp : Nat) (b fd2 : ByteBuf) (u t : String)
    (h1 : message.photo.getLast? = some fid)
    (h2 : env.getFile fid = Except.ok fp)
    (h3 : env.downloadFile fp = Except.ok b)
    (h4 : dispatchConvert b = Except.ok fd2)
    (h5 : (upload_image_to_imgbb env.post fd2).1 = some u)
    (h6 : u ≠ "")
    (h7 : (analyze_image_openai env.client u 3 2).1 = some t)
    (h8 : t ≠ "") :
    (handle_photo env message).replies = ["Image analysis result:\n" ++ t] := by
  simp [handle_photo, handlePhotoInner, h1, h2, h3, h4, h5, h6, h7, h8]

/-- An environment in which every pipeline stage succeeds. -/
def envOk : Env :=
  { getFile := fun _ => Except.ok 1
    downloadFile := fun _ => Except.ok (ByteBuf.encoded ImgFormat.WEBP ColorMode.RGBA 7)
    post := fun _ => PostResult.response 200 (some "https://x/y.jpg")
    client := fun _ _ => ApiResult.response ["desc"] }

/-- Witness for C9 on a fully successful pipeline. -/
theorem handle_photo_success_reply_witness :
    (handle_photo envOk msgOne).replies = ["Image analysis result:\n" ++ "desc"] :=
  handle_photo_success_reply envOk msgOne 5 1
    (ByteBuf.encoded ImgFormat.WEBP ColorMode.RGBA 7)
    (ByteBuf.encoded ImgFormat.JPEG ColorMode.RGB 7) "https://x/y.jpg" "desc"
    rfl rfl rfl rfl rfl (by decide) rfl (by decide)

/-- C10: when the pipeline reaches the analysis stage and the model call
succeeds but its trimmed text is the empty string, the handler replies
with the analysis-failure message — never a success reply carrying empty
text (Python truthiness makes the empty string falsy). -/
theorem handle_photo_empty_text_failure_reply (env : Env) (message : Message)
    (fid fp : Nat) (b fd2 : ByteBuf) (u : String)
    (h1 : message.photo.getLast? = some fid)
    (h2 : env.getFile fid = Except.ok fp)
    (h3 : env.downloadFile fp = Except.ok b)
    (h4 : dispatchConvert b = Except.ok fd2)
    (h5 : (upload_image_to_imgbb env.post fd2).1 = some u)
    (h6 : u ≠ "")
    (h7 : (analyze_image_openai env.client u 3 2).1 = some "") :
    (handle_photo env message).replies =
      ["Failed to analyze image using OpenAI Vision API."] := by
  simp [handle_photo, handlePhotoInner, h1, h2, h3, h4, h5, h6, h7]

/-- An environment whose model endpoint returns whitespace-only text. -/
def envEmptyText : Env :=
  { getFile := fun _ => Except.ok 1
    downloadFile := fun _ => Except.ok (ByteBuf.encoded ImgFormat.WEBP ColorMode.RGBA 7)
    post := fun _ => PostResult.response 200 (some "https://x/y.jpg")
    client := fun _ _ => ApiResult.response ["  "] }

/-- Witness for C10 when the model returns whitespace-only content. -/
theorem handle_photo_empty_text_failure_reply_witness :
    (handle_photo envEmptyText msgOne).replies =
      ["Failed to analyze image using OpenAI Vision API."] :=
  handle_photo_empty_text_failure_reply envEmptyText msgOne 5 1
    (ByteBuf.encoded ImgFormat.WEBP ColorMode.RGBA 7)
    (ByteBuf.encoded ImgFormat.JPEG ColorMode.RGB 7) "https://x/y.jpg"
    rfl rfl rfl rfl rfl (by decide) (by decide)

end VisionBot
